import Mathlib

/-!
A Lean model of the upload pipeline of the `vc-file-upload` Python package
(`vc_file_upload/varsome.py`, `vc_file_upload/exception.py`,
`vc_file_upload/http_request.py`), with theorems about the modelled code.

Modelling conventions:

* Python `None` and optional values become `Option`; a Python function that
  catches every exception and returns `None` on failure becomes a total Lean
  function returning `Option`.
* The network is an oracle: each HTTP call's outcome (a response with a status
  code and the JSON-body fields the client reads, or a raised
  `requests.RequestException`) is an input to the modelled function.
* Python truthiness is modelled explicitly where the source relies on it:
  - a `requests.Response` is truthy iff `Response.ok`, i.e. iff
    `raise_for_status()` would not raise (`requests/models.py` defines
    `Response.__bool__` as `return self.ok`); an error response is *falsy*;
  - a `str` is truthy iff non-empty; an `int` is truthy iff non-zero;
    `None` is always falsy.
* `requests.Response.json()` on a body that is not valid JSON raises
  `requests.exceptions.JSONDecodeError`, which is a subclass of
  `requests.exceptions.RequestException` carrying no attached response.
-/

namespace VCUpload

/-- The JSON body of an HTTP response, restricted to the only two fields the
client ever reads: `upload_id` (read by `_upload_chunk` on success) and
`offset` (read by the 416 handler of `_process_multi_part_upload`).  A field
absent from the body is `none`. -/
structure JsonBody where
  upload_id? : Option String
  offset? : Option Int
deriving Repr, DecidableEq

/-- An HTTP response as seen by the client: its status code and its JSON body
(`body = none` models a body that is not valid JSON, on which
`Response.json()` raises `requests.exceptions.JSONDecodeError`). -/
structure HttpResponse where
  status_code : Nat
  body : Option JsonBody
deriving Repr, DecidableEq

/-- `requests.Response.raise_for_status()` raises `requests.HTTPError` exactly
when the status code is a 4xx or 5xx (`requests/models.py`). -/
def HttpResponse.raisesForStatus (r : HttpResponse) : Bool :=
  decide (400 ≤ r.status_code) && decide (r.status_code < 600)

/-- Python truthiness of a `requests.Response`: `Response.__bool__` returns
`self.ok`, which is `True` exactly when `raise_for_status()` would not raise
(`requests/models.py`).  In particular an error response such as a 416 is
*falsy*. -/
def HttpResponse.toBool (r : HttpResponse) : Bool :=
  !r.raisesForStatus

/-- The `original_exception` wrapped by `UploadException` in `_upload_chunk`:
either a `requests.RequestException` (which always has a `.response`
attribute, possibly `None`), or the `KeyError` raised by
`response.json()["upload_id"]` when the body lacks that key. -/
inductive OriginalException where
  | requestError (response : Option HttpResponse)
  | keyError
deriving Repr, DecidableEq

/-- `getattr(original_exception, "response", None)`:
a `requests.RequestException` has a `response` attribute (possibly `None`);
a `KeyError` has no such attribute, so `getattr` yields `None`. -/
def OriginalException.getResponse : OriginalException → Option HttpResponse
  | .requestError r => r
  | .keyError => none

/-- `vc_file_upload/exception.py`, class `UploadException`: the message, the
wrapped original exception, and the optional HTTP status code (class
attribute default `None`). -/
structure UploadException where
  message : String
  original_exception : OriginalException
  status_code : Option Nat
deriving Repr, DecidableEq

/-- `UploadException.__init__(message, original_exception)`
(`exception.py` lines 14-18).  The constructor runs
`if http_response := getattr(original_exception, "response", None):` and
copies `http_response.status_code` only when that walrus test is *truthy*.
`getattr` yields the attached response (or `None`), and a
`requests.Response` is truthy iff it is `ok` (status < 400), so for an
attached *error* response the status code is not copied and `status_code`
stays `None`. -/
def mkUploadException (message : String) (orig : OriginalException) :
    UploadException :=
  { message := message
    original_exception := orig
    status_code :=
      match orig.getResponse with
      | some r => if r.toBool then some r.status_code else none
      | none => none }

/-- The outcome of the `client.post` call in `_upload_chunk`, as seen by the
surrounding `try`: either an HTTP response was obtained (of any status), or
the transport layer raised a `requests.RequestException` carrying an optional
attached response. -/
inductive PostOutcome where
  | gotResponse (r : HttpResponse)
  | transportError (response : Option HttpResponse)
deriving Repr, DecidableEq

/-- `VarSomeClinicalFileUploader._upload_chunk` (`varsome.py` lines 387-408),
reduced to its error-translation behaviour: given the outcome of the POST it
either returns the `upload_id` field of the JSON body or raises (returns as
`Except.error`) an `UploadException`:

* a transport-level `RequestException` is wrapped as
  `UploadException("Failed to upload file …", original_exception=e)`;
* `raise_for_status()` on a 4xx/5xx response raises `requests.HTTPError`
  (a `RequestException` whose `.response` is that response), wrapped the
  same way;
* a non-JSON body makes `response.json()` raise
  `requests.exceptions.JSONDecodeError ⊂ RequestException` (no attached
  response), wrapped the same way;
* a JSON body without an `"upload_id"` key raises `KeyError`, wrapped as
  `UploadException("Invalid response while uploading file …",
  original_exception=e)`. -/
def uploadChunkResult (file_name : String) (outcome : PostOutcome) :
    Except UploadException String :=
  match outcome with
  | .transportError resp? =>
      .error (mkUploadException ("Failed to upload file " ++ file_name)
        (.requestError resp?))
  | .gotResponse r =>
      if r.raisesForStatus then
        .error (mkUploadException ("Failed to upload file " ++ file_name)
          (.requestError (some r)))
      else
        match r.body with
        | none =>
            .error (mkUploadException ("Failed to upload file " ++ file_name)
              (.requestError none))
        | some b =>
            match b.upload_id? with
            | some u => .ok u
            | none =>
                .error (mkUploadException
                  ("Invalid response while uploading file " ++ file_name)
                  .keyError)

/-- Python truthiness of the `upload_id` variable (`Optional[str]`) as used
by `_upload_chunk`'s `if upload_id: request_params["upload_id"] = upload_id`:
`None` and the empty string are falsy, so the query parameter is attached
only for a non-empty id. -/
def truthyParam : Option String → Option String
  | none => none
  | some s => if s = "" then none else some s

/-- Python truthiness of the walrus test
`if server_offset := response.json().get("offset"):` in the 416 handler:
`.get` yields `None` when the key is missing, and the integer `0` is falsy,
so the rewind happens only for a present, non-zero offset. -/
def truthyOffset : Option Int → Option Int
  | none => none
  | some k => if k = 0 then none else some k

/-- One chunk POST as issued by `_upload_chunk`, recorded by the modelled
orchestrator: the byte window (`stop` models the Python local `end`, a
reserved word in Lean), the declared total, the `Content-Range` header value
built by `f"bytes {start}-{end}/{file_size}"`, the `upload_id` query
parameter actually attached (after Python truthiness), and the `upload_id`
the server returned when the send succeeded (`none` when it raised). -/
structure SentChunk where
  start : Nat
  stop : Nat
  total : Nat
  header : String
  uploadIdParam : Option String
  returned : Option String
deriving Repr, DecidableEq

/-- Terminal outcome of `_process_multi_part_upload`:
`success u` models `return upload_id`, `failed` models the logged
`return None` paths, `crashed` models an uncaught Python exception escaping
the function (possible only inside the 416 handler: `AttributeError` when
`original_exception` has no usable `.response`, or `JSONDecodeError` on a
non-JSON 416 body), and `fuelOut` is the modelling artifact for exhausted
loop fuel. -/
inductive MultiPartResult where
  | success (upload_id : String)
  | failed
  | crashed
  | fuelOut
deriving Repr, DecidableEq

/-- The `Content-Range` header value built by `_upload_chunk` from the
`f"{start}-{end}/{file_size}"` range string:
`"Content-Range": f"bytes {file_range}"`. -/
def rangeHeader (start stop total : Nat) : String :=
  "bytes " ++ toString start ++ "-" ++ toString stop ++ "/" ++ toString total

/-- The `while True:` loop of `_process_multi_part_upload` (`varsome.py`
lines 304-341), as one fuel-indexed step function.

State per iteration: `start` (next byte offset), `uploadId` (the Python
`upload_id` variable: `None` until a send succeeds, then the last returned
id), `attempt` (how many POSTs have been issued, indexing the `oracle` that
supplies each POST's outcome), and `acc` (the chunks sent so far).

Each iteration computes `end = min(start + chunk_size, file_size)`, issues
the POST (recorded in the trace), and then:

* on success: `return upload_id` when `end == file_size`, else continue
  from `start = end` with the returned id;
* on `UploadException` with `status_code == 416`: read
  `e.original_exception.response` — no response at all is an uncaught
  `AttributeError` (`crashed`), a non-JSON body is an uncaught
  `JSONDecodeError` (`crashed`); then `if server_offset :=
  body.get("offset"):` rewinds `start` to the offset when it is truthy; a
  negative offset makes the next iteration's `file.seek(start)` raise
  `OSError`, caught by the outer `except (IOError, OSError)` → `failed`;
  a falsy offset falls through to the logged `return None` (`failed`);
* on any other `UploadException`: logged `return None` (`failed`). -/
def processLoop (oracle : Nat → PostOutcome) (file_name : String)
    (chunk_size file_size : Nat) :
    Nat → Nat → Option String → Nat → List SentChunk →
      MultiPartResult × List SentChunk
  | 0, _, _, _, acc => (.fuelOut, acc)
  | fuel + 1, start, uploadId, attempt, acc =>
    let stop := min (start + chunk_size) file_size
    let hdr := rangeHeader start stop file_size
    match uploadChunkResult file_name (oracle attempt) with
    | .ok u =>
      let acc1 := acc ++ [⟨start, stop, file_size, hdr, truthyParam uploadId, some u⟩]
      if stop = file_size then (.success u, acc1)
      else processLoop oracle file_name chunk_size file_size fuel stop (some u)
        (attempt + 1) acc1
    | .error e =>
      let acc1 := acc ++ [⟨start, stop, file_size, hdr, truthyParam uploadId, none⟩]
      if e.status_code = some 416 then
        match e.original_exception.getResponse with
        | none => (.crashed, acc1)
        | some r =>
          match r.body with
          | none => (.crashed, acc1)
          | some b =>
            match truthyOffset b.offset? with
            | some k =>
              if k < 0 then (.failed, acc1)
              else processLoop oracle file_name chunk_size file_size fuel
                k.toNat uploadId (attempt + 1) acc1
            | none => (.failed, acc1)
      else (.failed, acc1)

/-- `VarSomeClinicalFileUploader._process_multi_part_upload`, assuming the
local file opens and reads without error (local I/O failure is caught by the
outer handler and yields `None`; no claim quantifies over it): start at
offset 0 with no session id. -/
def processMultiPartUpload (oracle : Nat → PostOutcome) (file_name : String)
    (chunk_size file_size fuel : Nat) : MultiPartResult × List SentChunk :=
  processLoop oracle file_name chunk_size file_size fuel 0 none 0 []

/-- The `Optional[str]` value `_process_multi_part_upload` hands back to
`_upload_local_file_multipart`. -/
def multipartUploadId : MultiPartResult → Option String
  | .success u => some u
  | _ => none

/-- A concrete server behaviour: the first chunk POST succeeds with
`{"upload_id": "123"}`; every later POST comes back as a real HTTP 416
response whose JSON body is `{"offset": 5}`. -/
def oracle416 : Nat → PostOutcome
  | 0 => .gotResponse ⟨200, some ⟨some "123", none⟩⟩
  | _ => .gotResponse ⟨416, some ⟨none, some 5⟩⟩

/-- The chunk list `tl`, beginning at byte `start`, exactly tiles
`[start, total)`: each chunk's window is
`[start, min (start + chunk_size) total)` and carries the matching
`Content-Range` value, consecutive chunks abut (no gaps, no overlaps), and
the last chunk ends exactly at `total`. -/
def TilesFrom (chunk_size total : Nat) : Nat → List SentChunk → Prop
  | _, [] => False
  | start, c :: rest =>
    c.start = start ∧ c.stop = min (start + chunk_size) total ∧
    c.total = total ∧
    c.header = rangeHeader start (min (start + chunk_size) total) total ∧
    ((min (start + chunk_size) total = total ∧ rest = []) ∨
     (min (start + chunk_size) total ≠ total ∧
      TilesFrom chunk_size total (min (start + chunk_size) total) rest))

/-- A server that accepts every chunk and always answers
`{"upload_id": "123"}`. -/
def okOracle : Nat → PostOutcome :=
  fun _ => .gotResponse ⟨200, some ⟨some "123", none⟩⟩

/-- A server that accepts every chunk but answers a *different* session id
each time: `"A"` to the first POST, `"B"` to the second, `"Z"` afterwards. -/
def driftOracle : Nat → PostOutcome
  | 0 => .gotResponse ⟨200, some ⟨some "A", none⟩⟩
  | 1 => .gotResponse ⟨200, some ⟨some "B", none⟩⟩
  | _ => .gotResponse ⟨200, some ⟨some "Z", none⟩⟩

/-- The value the checksum worker `_calculate_file_md5` deposits into its
one-shot queue: the hex digest on success, or the caught `OSError`/`IOError`
(modelled by its message) on failure. -/
inductive ChecksumOutcome where
  | digest (hex : String)
  | caught (errorMessage : String)
deriving Repr, DecidableEq

/-- `isinstance(md5_sum, Exception)` is false exactly on the digest case. -/
def ChecksumOutcome.isDigest : ChecksumOutcome → Bool
  | .digest _ => true
  | .caught _ => false

/-- The tail of `VarSomeClinicalFileUploader._upload_local_file_multipart`
(`varsome.py` lines 262-282), after the orchestrator finished and the
checksum thread was joined.  `md5_sum = queue.get()`; if it is an
`Exception`, log and return `None`; if `upload_id is None`, log and return
`None`; otherwise call `_complete_multipart_upload(upload_id, md5_sum,
client)` and return its result.  `finalizeOutcome` is the oracle for that
finalize POST (`_complete_multipart_upload` itself catches every
`RequestException`, JSON-decode errors included, and returns `None`).  The
Boolean of the result records whether the finalize endpoint was called at
all. -/
def uploadLocalFileMultipart (upload_id? : Option String)
    (md5 : ChecksumOutcome) (finalizeOutcome : Option String) :
    Option String × Bool :=
  match md5 with
  | .caught _ => (none, false)
  | .digest _ =>
    match upload_id? with
    | none => (none, false)
    | some _ => (finalizeOutcome, true)

/-- `MAX_SINGLE_UPLOAD_BYTES` (`varsome.py` line 20): the default value of
`max_single_file_upload_size_bytes`, 100 MiB. -/
def MAX_SINGLE_UPLOAD_BYTES : Nat := 100 * 1024 * 1024

/-- `MULTIPART_CHUNK_BYTES` (`varsome.py` line 21): the default value of
`multipart_upload_chunk_size`, 20 MiB. -/
def MULTIPART_CHUNK_BYTES : Nat := 20 * 1024 * 1024

/-- Which of the three paths `_upload_file_with_strategy` takes. -/
inductive UploadStrategy where
  | skip
  | singleShot
  | multipart
deriving Repr, DecidableEq

/-- The routing decision of `_upload_file_with_strategy` (`varsome.py` lines
180-191): a `None` size returns `None` at once; `file_size <=
max_single_file_upload_size_bytes` takes the single-shot PUT; otherwise the
multipart path. -/
def chooseStrategy (max_single : Nat) (file_size? : Option Nat) :
    UploadStrategy :=
  match file_size? with
  | none => .skip
  | some s => if s ≤ max_single then .singleShot else .multipart

/-- One file's whole pipeline, `_upload_file_with_strategy` (`varsome.py`
lines 160-191) with the multipart branch composed from the models above:
`singleOutcome` is the oracle for `_upload_local_file` (which catches every
`RequestException` and `IOError`/`OSError` and returns `None`), `oracle` the
per-POST outcomes of the chunk loop, `md5` the deposited checksum result,
and `finalizeOutcome` the finalize POST's result. -/
def perFileUpload (max_single chunk_size fuel : Nat)
    (singleOutcome : Option String) (oracle : Nat → PostOutcome)
    (file_name : String) (md5 : ChecksumOutcome)
    (finalizeOutcome : Option String) (file_size? : Option Nat) :
    Option String :=
  match file_size? with
  | none => none
  | some s =>
    if s ≤ max_single then singleOutcome
    else
      (uploadLocalFileMultipart
        (multipartUploadId
          (processMultiPartUpload oracle file_name chunk_size s fuel).1)
        md5 finalizeOutcome).1

/-- `VarSomeClinicalFileUploader._files_with_sizes` (`varsome.py` lines
129-158): for each `(path, name)` pair yield `(path, name, size)`, where
`stat` models `pathlib.Path(file_path).stat().st_size` with any
`IOError`/`OSError` caught, logged and converted to `None`. -/
def files_with_sizes (stat : String → Option Nat)
    (files : List (String × String)) : List (String × String × Option Nat) :=
  files.map fun pn => (pn.1, pn.2, stat pn.1)

/-- `VarSomeClinicalFileUploader.upload_local_files` (`varsome.py` lines
113-127): the dict comprehension mapping every file of the batch to the
outcome of its own pipeline, sizes via `_files_with_sizes`.  Every oracle is
keyed by the file path, so distinct entries have independent outcomes.  The
input mapping is modelled as an association list (Python dict keys are
unique; nothing below needs uniqueness). -/
def upload_local_files (stat : String → Option Nat)
    (max_single chunk_size fuel : Nat)
    (singleOutcome : String → String → Option String)
    (oracle : String → Nat → PostOutcome)
    (md5 : String → ChecksumOutcome)
    (finalizeOutcome : String → Option String)
    (files : List (String × String)) : List (String × Option String) :=
  (files_with_sizes stat files).map fun pns =>
    (pns.1,
      perFileUpload max_single chunk_size fuel
        (singleOutcome pns.1 pns.2.1) (oracle pns.1) pns.2.1 (md5 pns.1)
        (finalizeOutcome pns.1) pns.2.2)

/-- The per-entry value of `upload_local_files`, for stating that the batch
is exactly an independent map over its entries. -/
def perEntry (stat : String → Option Nat) (max_single chunk_size fuel : Nat)
    (singleOutcome : String → String → Option String)
    (oracle : String → Nat → PostOutcome) (md5 : String → ChecksumOutcome)
    (finalizeOutcome : String → Option String) (pn : String × String) :
    String × Option String :=
  (pn.1,
    perFileUpload max_single chunk_size fuel (singleOutcome pn.1 pn.2)
      (oracle pn.1) pn.2 (md5 pn.1) (finalizeOutcome pn.1) (stat pn.1))

/-- `VarSomeClinicalFileUploader.retrieve_external_files` (`varsome.py`
lines 64-78): each entry maps to `_retrieve_external_file`, which catches
every `requests.RequestException` (JSON-decode errors included) and returns
`None`; `retrieveOutcome` is that per-entry total oracle. -/
def retrieve_external_files
    (retrieveOutcome : String → String → Option String)
    (files : List (String × String)) : List (String × Option String) :=
  files.map fun pn => (pn.1, retrieveOutcome pn.1 pn.2)

/-- `TimeOutSession.request` (`http_request.py` lines 11-22), reduced to the
timeout it passes on: `timeout = kwargs.get("timeout", (10, 60));
kwargs.setdefault("timeout", timeout)`.  The argument is `none` when the
caller did not pass a `timeout` kwarg at all, and `some v` when the caller
passed value `v` — where `v` itself is `none` for an explicit Python
`timeout=None` (requests' way of disabling the timeout) and `some (c, r)`
for a `(connect, read)` pair.  The result is the timeout the wrapped
`requests.Session.request` effectively receives. -/
def effective_timeout (timeoutKwarg : Option (Option (Nat × Nat))) :
    Option (Nat × Nat) :=
  match timeoutKwarg with
  | none => some (10, 60)
  | some v => v

/-- 32-bit truncation: machine words of the MD5 state, kept as `Nat` reduced
modulo `2 ^ 32`. -/
def mask32 (x : Nat) : Nat := x % 4294967296

/-- Bitwise complement within 32 bits. -/
def not32 (x : Nat) : Nat := x ^^^ 4294967295

/-- 32-bit left rotation (for `x < 2 ^ 32`, `0 < s < 32`). -/
def rotl32 (x s : Nat) : Nat :=
  ((x <<< s) % 4294967296) ||| (x >>> (32 - s))

/-- The MD5 round constants `K[i] = floor(2^32 * abs(sin(i + 1)))`
(RFC 1321). -/
def md5K : List Nat :=
  [0xd76aa478, 0xe8c7b756, 0x242070db, 0xc1bdceee,
   0xf57c0faf, 0x4787c62a, 0xa8304613, 0xfd469501,
   0x698098d8, 0x8b44f7af, 0xffff5bb1, 0x895cd7be,
   0x6b901122, 0xfd987193, 0xa679438e, 0x49b40821,
   0xf61e2562, 0xc040b340, 0x265e5a51, 0xe9b6c7aa,
   0xd62f105d, 0x02441453, 0xd8a1e681, 0xe7d3fbc8,
   0x21e1cde6, 0xc33707d6, 0xf4d50d87, 0x455a14ed,
   0xa9e3e905, 0xfcefa3f8, 0x676f02d9, 0x8d2a4c8a,
   0xfffa3942, 0x8771f681, 0x6d9d6122, 0xfde5380c,
   0xa4beea44, 0x4bdecfa9, 0xf6bb4b60, 0xbebfbc70,
   0x289b7ec6, 0xeaa127fa, 0xd4ef3085, 0x04881d05,
   0xd9d4d039, 0xe6db99e5, 0x1fa27cf8, 0xc4ac5665,
   0xf4292244, 0x432aff97, 0xab9423a7, 0xfc93a039,
   0x655b59c3, 0x8f0ccc92, 0xffeff47d, 0x85845dd1,
   0x6fa87e4f, 0xfe2ce6e0, 0xa3014314, 0x4e0811a1,
   0xf7537e82, 0xbd3af235, 0x2ad7d2bb, 0xeb86d391]

/-- The MD5 per-round left-rotation amounts (RFC 1321). -/
def md5S : List Nat :=
  [7, 12, 17, 22, 7, 12, 17, 22, 7, 12, 17, 22, 7, 12, 17, 22,
   5, 9, 14, 20, 5, 9, 14, 20, 5, 9, 14, 20, 5, 9, 14, 20,
   4, 11, 16, 23, 4, 11, 16, 23, 4, 11, 16, 23, 4, 11, 16, 23,
   6, 10, 15, 21, 6, 10, 15, 21, 6, 10, 15, 21, 6, 10, 15, 21]

/-- The four MD5 round functions F, G, H, I, selected by round index
(RFC 1321). -/
def md5F (i b c d : Nat) : Nat :=
  if i < 16 then (b &&& c) ||| (not32 b &&& d)
  else if i < 32 then (d &&& b) ||| (not32 d &&& c)
  else if i < 48 then b ^^^ c ^^^ d
  else c ^^^ (b ||| not32 d)

/-- The MD5 message-word schedule (RFC 1321). -/
def md5G (i : Nat) : Nat :=
  if i < 16 then i
  else if i < 32 then (5 * i + 1) % 16
  else if i < 48 then (3 * i + 5) % 16
  else (7 * i) % 16

/-- Little-endian 32-bit word `j` of a 64-byte block. -/
def leWord (bytes : List Nat) (j : Nat) : Nat :=
  bytes.getD (4 * j) 0 + 256 * bytes.getD (4 * j + 1) 0 +
    65536 * bytes.getD (4 * j + 2) 0 + 16777216 * bytes.getD (4 * j + 3) 0

/-- One of the 64 MD5 rounds on the state `(a, b, c, d)`. -/
def md5Step (block : List Nat) (st : Nat × Nat × Nat × Nat) (i : Nat) :
    Nat × Nat × Nat × Nat :=
  let f := mask32 (st.1 + md5F i st.2.1 st.2.2.1 st.2.2.2 + md5K.getD i 0 +
    leWord block (md5G i))
  (st.2.2.2, mask32 (st.2.1 + rotl32 f (md5S.getD i 0)), st.2.1, st.2.2.1)

/-- The MD5 compression function: 64 rounds on one 64-byte block, then the
Davies-Meyer feed-forward addition. -/
def md5Compress (st : Nat × Nat × Nat × Nat) (block : List Nat) :
    Nat × Nat × Nat × Nat :=
  let r := (List.range 64).foldl (md5Step block) st
  (mask32 (st.1 + r.1), mask32 (st.2.1 + r.2.1), mask32 (st.2.2.1 + r.2.2.1),
    mask32 (st.2.2.2 + r.2.2.2))

/-- MD5 padding: `0x80`, zeros to 56 mod 64, then the bit length as a
little-endian 64-bit integer (RFC 1321). -/
def md5Pad (msg : List Nat) : List Nat :=
  msg ++ 128 :: List.replicate ((119 - msg.length % 64) % 64) 0 ++
    ((List.range 8).map fun i => ((8 * msg.length) >>> (8 * i)) % 256)

/-- Split a list into consecutive chunks of `m + 1` elements (the last chunk
may be shorter); `fuel`-indexed so that it reduces by kernel computation,
with `fuel = l.length` always sufficient since each step consumes at least
one element. -/
def chunksOfAux (m : Nat) : Nat → List Nat → List (List Nat)
  | _, [] => []
  | 0, x :: xs => [x :: xs]
  | fuel + 1, x :: xs =>
    (x :: xs).take (m + 1) :: chunksOfAux m fuel ((x :: xs).drop (m + 1))

/-- Split a list into consecutive chunks of `m + 1` elements; models reading
a file in fixed-size blocks (`f.read(m + 1)` until empty). -/
def chunksOfPos (m : Nat) (l : List Nat) : List (List Nat) :=
  chunksOfAux m l.length l

/-- The MD5 initial state (RFC 1321). -/
def md5Init : Nat × Nat × Nat × Nat :=
  (0x67452301, 0xefcdab89, 0x98badcfe, 0x10325476)

/-- The four little-endian bytes of a 32-bit word. -/
def wordLEBytes (w : Nat) : List Nat :=
  [w % 256, (w >>> 8) % 256, (w >>> 16) % 256, (w >>> 24) % 256]

/-- The 16-byte MD5 digest of a byte sequence (RFC 1321; what
`hashlib.md5(data).digest()` computes). -/
def md5Bytes (msg : List Nat) : List Nat :=
  let r := (chunksOfPos 63 (md5Pad msg)).foldl md5Compress md5Init
  wordLEBytes r.1 ++ wordLEBytes r.2.1 ++ wordLEBytes r.2.2.1 ++
    wordLEBytes r.2.2.2

/-- Lower-case hexadecimal digit. -/
def hexDigitChar (n : Nat) : Char :=
  if n < 10 then Char.ofNat (48 + n) else Char.ofNat (87 + n)

/-- Two lower-case hex digits of one byte. -/
def byteToHex (b : Nat) : String :=
  String.mk [hexDigitChar (b / 16), hexDigitChar (b % 16)]

/-- `hashlib.md5(data).hexdigest()`: the digest as lower-case hex. -/
def md5Hex (msg : List Nat) : String :=
  String.join ((md5Bytes msg).map byteToHex)

/-- The ASCII bytes of `"Hello, World!\n"`, the content hashed by the
repository's own checksum test. -/
def helloWorldBytes : List Nat :=
  [72, 101, 108, 108, 111, 44, 32, 87, 111, 114, 108, 100, 33, 10]

/-- `VarSomeClinicalFileUploader._calculate_file_md5` (`varsome.py` lines
446-466): reads the file in 8192-byte blocks (`while chunk :=
f.read(8192): md5_hash.update(chunk)`), then `queue.put(hexdigest)`;
any `OSError`/`IOError` (opening or reading) is caught and
`queue.put(e)` deposits the exception instead.  `read_result` models the
whole read: `Except.error` when opening or some read raises, `Except.ok
content` for the file's bytes.  `hashlib`'s incremental interface digests
the concatenation of all `update` calls, so the block loop computes the MD5
of the flattened 8192-byte chunking of the content.  The function is total
and returns exactly one `ChecksumOutcome` — the single `queue.put`
deposit into the one-shot slot. -/
def calculate_file_md5 (read_result : Except String (List Nat)) :
    ChecksumOutcome :=
  match read_result with
  | .error e => .caught e
  | .ok content => .digest (md5Hex (chunksOfPos 8191 content).flatten)

/-- C2: the claim says the raised upload error carries a `status_code` equal
to the HTTP response's status code *whenever* the underlying transport
exception has an attached HTTP response.  The code instead copies the status
only when the attached `requests.Response` is truthy, i.e. `ok`
(status < 400): a chunk send that fails through `raise_for_status()` on a
416 (or any 4xx/5xx) response produces an `UploadException` whose
`status_code` is `None` even though a response is attached.  The first
conjunct exhibits this at status 416; the second confirms the
missing-`upload_id` (`KeyError`) case carries no status; the third shows the
status *is* copied for an attached `ok` response, isolating the truthiness
slip. -/
theorem uploadException_drops_416_status :
    (uploadChunkResult "f.vcf" (.gotResponse ⟨416, some ⟨none, some 5⟩⟩) =
      .error (mkUploadException "Failed to upload file f.vcf"
        (.requestError (some ⟨416, some ⟨none, some 5⟩⟩)))) ∧
    (mkUploadException "Failed to upload file f.vcf"
        (.requestError (some ⟨416, some ⟨none, some 5⟩⟩))).status_code = none ∧
    (mkUploadException "Invalid response while uploading file f.vcf"
        .keyError).status_code = none ∧
    (mkUploadException "m"
        (.requestError (some ⟨200, none⟩))).status_code = some 200 :=
  ⟨rfl, rfl, rfl, rfl⟩

/-- C10: for every `UploadException` built by the constructor, if
`status_code` is not `None` then the original exception has an attached HTTP
response whose status code equals it; consequently, under the orchestrator's
`status_code == 416` guard the access `e.original_exception.response` cannot
fail for lack of a response. -/
theorem uploadException_status_implies_response
    (message : String) (orig : OriginalException) :
    (∀ c : Nat, (mkUploadException message orig).status_code = some c →
      ∃ r : HttpResponse,
        (mkUploadException message orig).original_exception.getResponse = some r ∧
        r.status_code = c) ∧
    ((mkUploadException message orig).status_code = some 416 →
      ((mkUploadException message orig).original_exception.getResponse).isSome = true) := by
  constructor
  · intro c hc
    cases orig with
    | keyError => simp [mkUploadException, OriginalException.getResponse] at hc
    | requestError r? =>
      cases r? with
      | none => simp [mkUploadException, OriginalException.getResponse] at hc
      | some r =>
        refine ⟨r, rfl, ?_⟩
        simp only [mkUploadException, OriginalException.getResponse] at hc
        by_cases hb : r.toBool
        · simp [hb] at hc
          exact hc
        · simp [hb] at hc
  · intro h416
    cases orig with
    | keyError => simp [mkUploadException, OriginalException.getResponse] at h416
    | requestError r? =>
      cases r? with
      | none => simp [mkUploadException, OriginalException.getResponse] at h416
      | some r => simp [mkUploadException, OriginalException.getResponse]

/-- Witness for `uploadException_status_implies_response`: a concrete
constructed exception with an attached `ok` response (status 200) whose
`status_code` is copied, at which the invariant produces the response. -/
theorem uploadException_status_implies_response_witness :
    ∃ r : HttpResponse,
      (mkUploadException "m"
        (.requestError (some ⟨200, some ⟨some "123", none⟩⟩))).original_exception.getResponse =
        some r ∧ r.status_code = 200 :=
  (uploadException_status_implies_response "m"
    (.requestError (some ⟨200, some ⟨some "123", none⟩⟩))).1 200 rfl

/-- C1: the claim says that when a chunk send fails with HTTP status 416 and
the body carries `{"offset": k}`, the next chunk send starts exactly at
byte `k`.  Evaluating the modelled orchestrator on a file of size 10 with
chunk size 6 against `oracle416`: the second send (range 6-10/10) fails with
a genuine 416 response carrying `{"offset": 5}`, yet the upload terminates
`failed` and no third send (at byte 5 or anywhere) happens — because
`UploadException.__init__` only copies the status code from a *truthy*
response, a 4xx `requests.Response` is falsy, so `e.status_code` is `None`
and the orchestrator's `e.status_code == 416` resync guard can never fire on
a real error response.  The final conjunct pins the root cause: the
exception raised for that very response carries `status_code = none`. -/
theorem resync_never_fires_on_real_416 :
    (processMultiPartUpload oracle416 "file.bin" 6 10 20).1 = .failed ∧
    ((processMultiPartUpload oracle416 "file.bin" 6 10 20).2.map
      fun c => (c.start, c.stop)) = [(0, 6), (6, 10)] ∧
    (uploadChunkResult "file.bin" (oracle416 1) =
      .error (mkUploadException "Failed to upload file file.bin"
        (.requestError (some ⟨416, some ⟨none, some 5⟩⟩)))) ∧
    (mkUploadException "Failed to upload file file.bin"
      (.requestError (some ⟨416, some ⟨none, some 5⟩⟩))).status_code = none :=
  ⟨rfl, rfl, rfl, rfl⟩

/-- Unfolding of one loop iteration whose chunk send succeeds. -/
theorem processLoop_ok_step (oracle : Nat → PostOutcome) (file_name : String)
    (C T f start : Nat) (uploadId : Option String) (attempt : Nat)
    (acc : List SentChunk) (u : String)
    (hu : uploadChunkResult file_name (oracle attempt) = .ok u) :
    processLoop oracle file_name C T (f + 1) start uploadId attempt acc =
      if min (start + C) T = T then
        (.success u, acc ++ [⟨start, min (start + C) T, T,
          rangeHeader start (min (start + C) T) T, truthyParam uploadId, some u⟩])
      else
        processLoop oracle file_name C T f (min (start + C) T) (some u)
          (attempt + 1) (acc ++ [⟨start, min (start + C) T, T,
            rangeHeader start (min (start + C) T) T, truthyParam uploadId,
            some u⟩]) := by
  simp only [processLoop, hu]

/-- Loop invariant for the all-sends-succeed run: from any in-range `start`
with enough fuel, the loop succeeds and appends to `acc` a chunk list that
tiles `[start, T)`. -/
theorem processLoop_all_ok_tiles (oracle : Nat → PostOutcome)
    (file_name : String) (C T : Nat) (hC : 0 < C)
    (hok : ∀ i, ∃ u, uploadChunkResult file_name (oracle i) = Except.ok u) :
    ∀ fuel start uploadId attempt acc, start < T → T - start ≤ fuel →
      (∃ u, (processLoop oracle file_name C T fuel start uploadId attempt acc).1 =
        .success u) ∧
      ∃ tl, (processLoop oracle file_name C T fuel start uploadId attempt acc).2 =
          acc ++ tl ∧ TilesFrom C T start tl := by
  intro fuel
  induction fuel with
  | zero => intro start uploadId attempt acc hs hf; omega
  | succ f ih =>
    intro start uploadId attempt acc hs hf
    obtain ⟨u, hu⟩ := hok attempt
    rw [processLoop_ok_step oracle file_name C T f start uploadId attempt acc u hu]
    by_cases hstop : min (start + C) T = T
    · rw [if_pos hstop]
      refine ⟨⟨u, rfl⟩, [⟨start, min (start + C) T, T,
        rangeHeader start (min (start + C) T) T, truthyParam uploadId, some u⟩],
        rfl, ?_⟩
      exact ⟨rfl, rfl, rfl, rfl, Or.inl ⟨hstop, rfl⟩⟩
    · rw [if_neg hstop]
      have hlt : min (start + C) T < T := by omega
      have hfuel2 : T - min (start + C) T ≤ f := by omega
      obtain ⟨hsucc, tl, htl, htiles⟩ :=
        ih (min (start + C) T) (some u) (attempt + 1)
          (acc ++ [⟨start, min (start + C) T, T,
            rangeHeader start (min (start + C) T) T, truthyParam uploadId,
            some u⟩]) hlt hfuel2
    -- reassemble the appended trace
      refine ⟨hsucc, ⟨start, min (start + C) T, T,
        rangeHeader start (min (start + C) T) T, truthyParam uploadId,
        some u⟩ :: tl, ?_, ?_⟩
      · rw [htl]
        simp
      · exact ⟨rfl, rfl, rfl, rfl, Or.inr ⟨hstop, htiles⟩⟩

/-- C5: for a file of size `T > 0` and chunk size `C > 0`, when every chunk
send succeeds (so no resync and no failure occurs), the orchestrator reaches
success and its emitted byte ranges, each sent with header value
`"bytes {start}-{end}/{total}"` and `end = min (start + C) T`, exactly tile
`[0, T)` starting at 0 with no gaps and no overlaps. -/
theorem multipart_ranges_tile (oracle : Nat → PostOutcome) (file_name : String)
    (C T fuel : Nat) (hC : 0 < C) (hT : 0 < T) (hfuel : T ≤ fuel)
    (hok : ∀ i, ∃ u, uploadChunkResult file_name (oracle i) = Except.ok u) :
    (∃ u, (processMultiPartUpload oracle file_name C T fuel).1 = .success u) ∧
    TilesFrom C T 0 (processMultiPartUpload oracle file_name C T fuel).2 := by
  obtain ⟨hsucc, tl, htl, htiles⟩ :=
    processLoop_all_ok_tiles oracle file_name C T hC hok fuel 0 none 0 [] hT
      (by omega)
  refine ⟨hsucc, ?_⟩
  have h2 : (processMultiPartUpload oracle file_name C T fuel).2 = tl := by
    rw [processMultiPartUpload, htl]
    simp
  rw [h2]
  exact htiles

/-- Witness for `multipart_ranges_tile`: the spec's own example `T = 10`,
`C = 6` (ranges `0-6/10` then `6-10/10`). -/
theorem multipart_ranges_tile_witness :
    (∃ u, (processMultiPartUpload okOracle "file.bin" 6 10 10).1 =
      .success u) ∧
    TilesFrom 6 10 0 (processMultiPartUpload okOracle "file.bin" 6 10 10).2 :=
  multipart_ranges_tile okOracle "file.bin" 6 10 10 (by decide) (by decide)
    (by decide) (fun _ => ⟨"123", rfl⟩)

/-- Loop invariant: once the `upload_id` loop variable holds `u` and every
send succeeds returning `u`, every chunk sent from then on carries the query
parameter `truthyParam (some u)`. -/
theorem processLoop_params_stable (oracle : Nat → PostOutcome)
    (file_name : String) (C T : Nat) (u : String)
    (hok : ∀ i, uploadChunkResult file_name (oracle i) = Except.ok u) :
    ∀ fuel start attempt acc,
      ∃ tl, (processLoop oracle file_name C T fuel start (some u) attempt acc).2 =
          acc ++ tl ∧ ∀ c ∈ tl, c.uploadIdParam = truthyParam (some u) := by
  intro fuel
  induction fuel with
  | zero =>
    intro start attempt acc
    exact ⟨[], by simp [processLoop], by simp⟩
  | succ f ih =>
    intro start attempt acc
    rw [processLoop_ok_step oracle file_name C T f start (some u) attempt acc u
      (hok attempt)]
    by_cases hstop : min (start + C) T = T
    · rw [if_pos hstop]
      refine ⟨[⟨start, min (start + C) T, T,
        rangeHeader start (min (start + C) T) T, truthyParam (some u), some u⟩],
        rfl, ?_⟩
      intro c hc
      simp only [List.mem_singleton] at hc
      subst hc
      rfl
    · rw [if_neg hstop]
      obtain ⟨tl, htl, hparam⟩ := ih (min (start + C) T) (attempt + 1)
        (acc ++ [⟨start, min (start + C) T, T,
          rangeHeader start (min (start + C) T) T, truthyParam (some u), some u⟩])
      refine ⟨⟨start, min (start + C) T, T,
        rangeHeader start (min (start + C) T) T, truthyParam (some u), some u⟩ ::
        tl, ?_, ?_⟩
      · rw [htl]
        simp
      · intro c hc
        rcases List.mem_cons.mp hc with h | h
        · subst h
          rfl
        · exact hparam c h

/-- C7 counterexample: against `driftOracle` with `T = 5`, `C = 2` the
orchestrator issues three sends whose (param, returned-id) pairs are
`(None, "A")`, `("A", "B")`, `("B", "Z")`: the third send carries `"B"`,
the id returned by the *most recent* successful send, not the `"A"`
returned by the *first* successful send — refuting the claim that every
send after the first carries the first send's id. -/
theorem upload_id_reuse_counterexample :
    ((processMultiPartUpload driftOracle "f.bin" 2 5 10).2.map
      fun c => (c.uploadIdParam, c.returned)) =
      [(none, some "A"), (some "A", some "B"), (some "B", some "Z")] ∧
    ¬ ∀ c ∈ (processMultiPartUpload driftOracle "f.bin" 2 5 10).2.drop 1,
        c.uploadIdParam = some "A" :=
  ⟨rfl, by decide⟩

/-- C7 amended: the first chunk send never carries an `upload_id` query
parameter, and every subsequent send carries the id returned by the most
recent preceding successful send; in particular, when every send succeeds
returning one fixed non-empty id `u` (the protocol's expected server
behaviour, under which "most recent" coincides with "first"), every send
after the first carries exactly `u`. -/
theorem upload_id_reuse (oracle : Nat → PostOutcome) (file_name : String)
    (C T fuel : Nat) (u : String) (hu : u ≠ "")
    (hok : ∀ i, uploadChunkResult file_name (oracle i) = Except.ok u)
    (hfuel : 0 < fuel) :
    ∃ c0 tl, (processMultiPartUpload oracle file_name C T fuel).2 = c0 :: tl ∧
      c0.uploadIdParam = none ∧ ∀ c ∈ tl, c.uploadIdParam = some u := by
  obtain ⟨f, rfl⟩ : ∃ f, fuel = f + 1 := ⟨fuel - 1, by omega⟩
  rw [processMultiPartUpload,
    processLoop_ok_step oracle file_name C T f 0 none 0 [] u (hok 0)]
  simp only [Nat.zero_add, List.nil_append]
  by_cases hstop : min C T = T
  · rw [if_pos hstop]
    exact ⟨_, [], rfl, rfl, by simp⟩
  · rw [if_neg hstop]
    obtain ⟨tl, htl, hparam⟩ := processLoop_params_stable oracle file_name C T u
      hok f (min C T) 1 [⟨0, min C T, T,
        rangeHeader 0 (min C T) T, truthyParam none, some u⟩]
    refine ⟨⟨0, min C T, T, rangeHeader 0 (min C T) T,
      truthyParam none, some u⟩, tl, ?_, rfl, ?_⟩
    · rw [htl]
      simp
    · intro c hc
      have hcp := hparam c hc
      simpa [truthyParam, hu] using hcp

/-- Witness for `upload_id_reuse`: the constant-id server `okOracle` with
`T = 10`, `C = 6`. -/
theorem upload_id_reuse_witness :
    ∃ c0 tl, (processMultiPartUpload okOracle "file.bin" 6 10 10).2 =
        c0 :: tl ∧
      c0.uploadIdParam = none ∧ ∀ c ∈ tl, c.uploadIdParam = some "123" :=
  upload_id_reuse okOracle "file.bin" 6 10 10 "123" (by decide)
    (fun _ => rfl) (by decide)

/-- C3: the finalize endpoint is called iff the orchestrator returned a
non-`None` upload-session id *and* the checksum worker deposited a digest
(not a captured exception); and whenever it is not called, the file's
outcome is `None`. -/
theorem finalize_iff_session_and_digest (upload_id? : Option String)
    (md5 : ChecksumOutcome) (finalizeOutcome : Option String) :
    ((uploadLocalFileMultipart upload_id? md5 finalizeOutcome).2 = true ↔
      upload_id?.isSome = true ∧ md5.isDigest = true) ∧
    ((uploadLocalFileMultipart upload_id? md5 finalizeOutcome).2 = false →
      (uploadLocalFileMultipart upload_id? md5 finalizeOutcome).1 = none) := by
  cases md5 <;> cases upload_id? <;>
    simp [uploadLocalFileMultipart, ChecksumOutcome.isDigest]

/-- Witness for `finalize_iff_session_and_digest`: with a session id and a
digest present, the finalize call happens. -/
theorem finalize_iff_session_and_digest_witness :
    (uploadLocalFileMultipart (some "123") (ChecksumOutcome.digest "d")
      (some "resp")).2 = true :=
  (finalize_iff_session_and_digest (some "123") (ChecksumOutcome.digest "d")
    (some "resp")).1.mpr ⟨rfl, rfl⟩

/-- C4: strategy routing.  An unknown (`None`) size yields `None` without
consulting any network oracle (the conclusion holds for *every* value of
every oracle argument); `s ≤ threshold` (inclusive at the boundary) routes
to the single-shot PUT; `s > threshold` routes to the multipart path; the
default threshold is 100 MiB. -/
theorem strategy_routing (max_single chunk_size fuel : Nat)
    (singleOutcome : Option String) (oracle : Nat → PostOutcome)
    (file_name : String) (md5 : ChecksumOutcome)
    (finalizeOutcome : Option String) :
    (chooseStrategy max_single none = .skip ∧
      perFileUpload max_single chunk_size fuel singleOutcome oracle file_name
        md5 finalizeOutcome none = none) ∧
    (∀ s, s ≤ max_single → chooseStrategy max_single (some s) = .singleShot ∧
      perFileUpload max_single chunk_size fuel singleOutcome oracle file_name
        md5 finalizeOutcome (some s) = singleOutcome) ∧
    (∀ s, max_single < s → chooseStrategy max_single (some s) = .multipart ∧
      perFileUpload max_single chunk_size fuel singleOutcome oracle file_name
        md5 finalizeOutcome (some s) =
        (uploadLocalFileMultipart
          (multipartUploadId
            (processMultiPartUpload oracle file_name chunk_size s fuel).1)
          md5 finalizeOutcome).1) ∧
    MAX_SINGLE_UPLOAD_BYTES = 100 * 1024 * 1024 := by
  refine ⟨⟨rfl, rfl⟩, fun s hs => ?_, fun s hs => ?_, rfl⟩
  · constructor <;> simp [chooseStrategy, perFileUpload, hs]
  · have hns : ¬ s ≤ max_single := by omega
    constructor <;> simp [chooseStrategy, perFileUpload, hns]

/-- Witness for `strategy_routing`: the boundary sizes `threshold - 1`,
`threshold`, `threshold + 1` at the default threshold, plus the
unknown-size case. -/
theorem strategy_routing_witness :
    chooseStrategy MAX_SINGLE_UPLOAD_BYTES
        (some (MAX_SINGLE_UPLOAD_BYTES - 1)) = .singleShot ∧
    chooseStrategy MAX_SINGLE_UPLOAD_BYTES
        (some MAX_SINGLE_UPLOAD_BYTES) = .singleShot ∧
    chooseStrategy MAX_SINGLE_UPLOAD_BYTES
        (some (MAX_SINGLE_UPLOAD_BYTES + 1)) = .multipart ∧
    perFileUpload MAX_SINGLE_UPLOAD_BYTES 6 10 (some "resp") okOracle "f.bin"
      (ChecksumOutcome.digest "d") (some "fin") none = none :=
  ⟨((strategy_routing MAX_SINGLE_UPLOAD_BYTES 6 10 (some "resp") okOracle
      "f.bin" (ChecksumOutcome.digest "d") (some "fin")).2.1
      (MAX_SINGLE_UPLOAD_BYTES - 1) (by omega)).1,
   ((strategy_routing MAX_SINGLE_UPLOAD_BYTES 6 10 (some "resp") okOracle
      "f.bin" (ChecksumOutcome.digest "d") (some "fin")).2.1
      MAX_SINGLE_UPLOAD_BYTES (le_refl _)).1,
   ((strategy_routing MAX_SINGLE_UPLOAD_BYTES 6 10 (some "resp") okOracle
      "f.bin" (ChecksumOutcome.digest "d") (some "fin")).2.2.1
      (MAX_SINGLE_UPLOAD_BYTES + 1) (by omega)).1,
   (strategy_routing MAX_SINGLE_UPLOAD_BYTES 6 10 (some "resp") okOracle
      "f.bin" (ChecksumOutcome.digest "d") (some "fin")).1.2⟩

/-- The batch is exactly an independent map of the per-entry pipeline over
the input entries. -/
theorem upload_local_files_eq_map (stat : String → Option Nat)
    (max_single chunk_size fuel : Nat)
    (singleOutcome : String → String → Option String)
    (oracle : String → Nat → PostOutcome) (md5 : String → ChecksumOutcome)
    (finalizeOutcome : String → Option String)
    (files : List (String × String)) :
    upload_local_files stat max_single chunk_size fuel singleOutcome oracle
        md5 finalizeOutcome files =
      files.map (perEntry stat max_single chunk_size fuel singleOutcome
        oracle md5 finalizeOutcome) := by
  unfold upload_local_files files_with_sizes perEntry
  rw [List.map_map]
  rfl

/-- C6: batch isolation.  The outcome mapping of `upload_local_files` (and
of `retrieve_external_files`) has exactly the input's keys in the input's
order; each entry's value is its own pipeline's outcome; a stat failure on
one entry yields `None` for that entry alone; and an entry's value depends
only on the oracles of its own key (changing every other file's world does
not change it).  The modelled pipeline is a total function, reflecting that
every per-file exception is caught inside the pipeline and converted to
`None` rather than raised out of the batch call. -/
theorem batch_isolation (stat stat2 : String → Option Nat)
    (max_single chunk_size fuel : Nat)
    (so so2 : String → String → Option String)
    (or1 or2 : String → Nat → PostOutcome)
    (md md2 : String → ChecksumOutcome) (fo fo2 : String → Option String)
    (ro : String → String → Option String)
    (files : List (String × String)) :
    ((upload_local_files stat max_single chunk_size fuel so or1 md fo
        files).map Prod.fst = files.map Prod.fst) ∧
    ((upload_local_files stat max_single chunk_size fuel so or1 md fo
        files).length = files.length) ∧
    (∀ i : Nat,
      (upload_local_files stat max_single chunk_size fuel so or1 md fo
        files)[i]? =
      files[i]?.map
        (perEntry stat max_single chunk_size fuel so or1 md fo)) ∧
    (∀ pn ∈ files, stat pn.1 = none →
      perEntry stat max_single chunk_size fuel so or1 md fo pn =
        (pn.1, none)) ∧
    (∀ pn ∈ files, stat pn.1 = stat2 pn.1 → so pn.1 pn.2 = so2 pn.1 pn.2 →
      or1 pn.1 = or2 pn.1 → md pn.1 = md2 pn.1 → fo pn.1 = fo2 pn.1 →
      perEntry stat max_single chunk_size fuel so or1 md fo pn =
        perEntry stat2 max_single chunk_size fuel so2 or2 md2 fo2 pn) ∧
    ((retrieve_external_files ro files).map Prod.fst =
      files.map Prod.fst) ∧
    (∀ i : Nat, (retrieve_external_files ro files)[i]? =
      files[i]?.map fun pn => (pn.1, ro pn.1 pn.2)) := by
  refine ⟨?_, ?_, ?_, ?_, ?_, ?_, ?_⟩
  · rw [upload_local_files_eq_map, List.map_map]
    rfl
  · rw [upload_local_files_eq_map]
    exact List.length_map files _
  · intro i
    rw [upload_local_files_eq_map]
    exact List.getElem?_map _ files i
  · intro pn _ hstat
    simp [perEntry, perFileUpload, hstat]
  · intro pn _ h1 h2 h3 h4 h5
    simp [perEntry, h1, h2, h3, h4, h5]
  · rw [retrieve_external_files, List.map_map]
    rfl
  · intro i
    rw [retrieve_external_files]
    exact List.getElem?_map _ files i

/-- A concrete two-file batch: `a.vcf` readable with size 50, `b.vcf`
unreadable (its `stat` raises, modelled as `none`). -/
def statW : String → Option Nat :=
  fun p => if p = "a.vcf" then some 50 else none

def filesW : List (String × String) := [("a.vcf", "a"), ("b.vcf", "b")]

def soW : String → String → Option String := fun _ _ => some "ok"

def orW : String → Nat → PostOutcome := fun _ => okOracle

def mdW : String → ChecksumOutcome := fun _ => ChecksumOutcome.digest "d"

def foW : String → Option String := fun _ => some "fin"

def roW : String → String → Option String := fun _ _ => some "meta"

/-- Witness for `batch_isolation`: in the concrete two-file batch with one
unreadable file, the keys are preserved and the unreadable entry's value is
`None`. -/
theorem batch_isolation_witness :
    perEntry statW 100 6 10 soW orW mdW foW ("b.vcf", "b") = ("b.vcf", none) ∧
    ((upload_local_files statW 100 6 10 soW orW mdW foW filesW).map
      Prod.fst = filesW.map Prod.fst) :=
  ⟨(batch_isolation statW statW 100 6 10 soW soW orW orW mdW mdW foW foW roW
      filesW).2.2.2.1 ("b.vcf", "b") (by decide) (by decide),
   (batch_isolation statW statW 100 6 10 soW soW orW orW mdW mdW foW foW roW
      filesW).1⟩

/-- C8 counterexample: the claim says some timeout is in effect for every
request issued through the session.  A caller passing an explicit
`timeout=None` keeps that `None` (`kwargs.get` finds the key, `setdefault`
keeps the existing value), so the wrapped request runs with no timeout at
all. -/
theorem timeout_can_be_unset_counterexample :
    effective_timeout (some none) = none ∧
    ¬ ∀ k, (effective_timeout k).isSome = true :=
  ⟨rfl, fun h => by
    have hx := h (some none)
    simp [effective_timeout] at hx⟩

/-- C8 amended: every request issued without an explicit `timeout` argument
carries the connect/read timeout `(10, 60)`; a caller-supplied `timeout`
value is passed through unchanged per call — including an explicit `None`,
which disables the timeout, so a timeout is in effect for every call except
an explicit `timeout=None`. -/
theorem timeout_default_and_override :
    (effective_timeout none = some (10, 60)) ∧
    (∀ v, effective_timeout (some v) = v) ∧
    (∀ c r : Nat, effective_timeout (some (some (c, r))) = some (c, r)) :=
  ⟨rfl, fun _ => rfl, fun _ _ => rfl⟩

/-- Flattening the chunking recovers the original list (enough fuel). -/
theorem chunksOfAux_flatten (m : Nat) :
    ∀ fuel l, l.length ≤ fuel → (chunksOfAux m fuel l).flatten = l := by
  intro fuel
  induction fuel with
  | zero =>
    intro l hl
    cases l with
    | nil => simp [chunksOfAux]
    | cons x xs => simp at hl
  | succ f ih =>
    intro l hl
    cases l with
    | nil => simp [chunksOfAux]
    | cons x xs =>
      rw [chunksOfAux]
      rw [List.flatten_cons]
      rw [ih ((x :: xs).drop (m + 1))
        (by simp only [List.length_drop, List.length_cons] at hl ⊢; omega)]
      exact List.take_append_drop (m + 1) (x :: xs)

/-- Reading a byte sequence in fixed-size blocks loses and reorders
nothing. -/
theorem chunksOfPos_flatten (m : Nat) (l : List Nat) :
    (chunksOfPos m l).flatten = l :=
  chunksOfAux_flatten m l.length l (le_refl _)

set_option maxRecDepth 20000 in
/-- C9: the checksum worker deposits exactly one value into its one-shot
slot — the modelled worker is a total function with exactly one result.  On
a readable file it deposits the hex MD5 digest of the file's bytes, and the
8192-byte block loop yields the same digest as hashing the content in one
piece (block boundaries do not matter); on any I/O failure it deposits the
caught error and never crashes.  The last conjunct checks the repository's
own test vector: the content `"Hello, World!\n"` hashes to the fixed known
digest. -/
theorem checksum_worker_correct :
    (∀ content : List Nat, calculate_file_md5 (Except.ok content) =
      ChecksumOutcome.digest (md5Hex content)) ∧
    (∀ e : String, calculate_file_md5 (Except.error e) =
      ChecksumOutcome.caught e) ∧
    md5Hex helloWorldBytes = "bea8252ff4e80f41719ea13cdf007273" := by
  refine ⟨fun content => ?_, fun e => rfl, ?_⟩
  · simp only [calculate_file_md5]
    rw [chunksOfPos_flatten]
  · decide

end VCUpload
